import Mathlib

set_option linter.unusedVariables false

/-!
Shallow embedding of the `vision-workflow-navigator` repository (TypeScript)
and proofs about its goal classifier, oracle-adapter fallback, step executor,
locator fallback and artifact generator.

Conventions of the embedding:
* JS numbers are modelled as `ℚ` (all arithmetic in the embedded code is exact).
* JS `string` is `String`; `undefined`/optional fields are `Option`.
* The wall clock (`new Date().toISOString()`) is passed in explicitly as a
  `now : String` argument wherever the source reads it.
* External effects (the Gemini remote call, `JSON.parse`, Playwright page
  operations, `Math.random()`) are passed in as explicit parameters, so every
  definition is a total computable function.
-/

namespace VisionNav

/-- From `src/types/index.ts`: `BoundingBox` — four percentage values. -/
structure BoundingBox where
  x : ℚ
  y : ℚ
  width : ℚ
  height : ℚ
  deriving DecidableEq

/-- From `src/types/index.ts`: `UIElement`. `boundingBox` is a required field
of the interface; `selector`, `clickable`, `inputable` are optional. -/
structure UIElement where
  id : String
  tag : String
  text : String
  boundingBox : BoundingBox
  selector : Option String := none
  clickable : Option Bool := none
  inputable : Option Bool := none
  deriving DecidableEq

/-- From `src/types/index.ts`: the `Action.type` string union. -/
inductive ActionType where
  | click
  | type
  | select
  | wait
  | navigate
  | scroll
  deriving DecidableEq

/-- From `src/types/index.ts`: the `Action.status` string union. -/
inductive ActionStatus where
  | pending
  | analyzing
  | ready
  | executing
  | completed
  | failed
  deriving DecidableEq

/-- From `src/types/index.ts`: `Action`. -/
structure Action where
  id : String
  type : ActionType
  target : Option UIElement := none
  value : Option String := none
  description : String
  order : Int
  status : ActionStatus
  reason : Option String := none
  deriving DecidableEq

/-- From `src/types/index.ts`: the `ExecutionLog.status` string union. -/
inductive LogStatus where
  | success
  | error
  | info
  deriving DecidableEq

/-- From `src/types/index.ts`: `ExecutionLog`. -/
structure ExecutionLog where
  timestamp : String
  action : String
  status : LogStatus
  details : Option String := none
  deriving DecidableEq

/-- From `src/types/index.ts`: the `Artifact.type` string union. -/
inductive ArtifactType where
  | screenshot
  | playwrightScript
  | runLog
  | summary
  deriving DecidableEq

/-- From `src/types/index.ts`: `Artifact`. -/
structure Artifact where
  type : ArtifactType
  content : String
  filename : Option String := none
  deriving DecidableEq

/-- From `src/lib/speech.ts`: `AnalysisResult`. -/
structure AnalysisResult where
  elements : List UIElement
  summary : String
  suggestedActions : List String
  deriving DecidableEq

/-- ASCII lower-casing of one character, modelling what
`String.prototype.toLowerCase()` does on the ASCII range (the only range the
classifier vocabulary lives in). -/
def charLower (c : Char) : Char :=
  if c.isUpper then Char.ofNat (c.toNat + 32) else c

/-- Models `goal.toLowerCase()`. -/
def strLower (s : String) : String :=
  String.mk (s.data.map charLower)

/-- `matchesAt needle hay`: `needle` occurs at the head of `hay`. -/
def matchesAt : List Char → List Char → Bool
  | [], _ => true
  | _ :: _, [] => false
  | c :: cs, d :: ds => c == d && matchesAt cs ds

/-- `hasSub needle hay`: `needle` occurs contiguously somewhere in `hay`. -/
def hasSub (needle : List Char) : List Char → Bool
  | [] => matchesAt needle []
  | l@(_ :: ds) => matchesAt needle l || hasSub needle ds

/-- Models `s.includes(sub)` (substring containment). -/
def strIncludes (s : String) (sub : String) : Bool :=
  hasSub sub.data s.data

/-- The action template pushed by `generateActionsFromGoal` for the
"product"/"find" vocabulary entry (`src/App.tsx` 261–273). -/
def productAction : Action :=
  { id := "1", type := ActionType.click,
    description := "Click on first product under $50",
    order := 1, status := ActionStatus.pending,
    target := some
      { id := "prod-1", tag := "div", text := "Product Card - $29.99",
        boundingBox := { x := 10, y := 20, width := 20, height := 15 } } }

/-- The action template for the "cart"/"add" entry (`src/App.tsx` 277–289). -/
def addToCartAction : Action :=
  { id := "2", type := ActionType.click,
    description := "Click Add to Cart button",
    order := 2, status := ActionStatus.pending,
    target := some
      { id := "add-cart", tag := "button", text := "Add to Cart",
        boundingBox := { x := 40, y := 60, width := 15, height := 5 } } }

/-- The action template for the "coupon"/"apply" entry (`src/App.tsx` 293–307). -/
def couponAction : Action :=
  { id := "3", type := ActionType.type,
    description := "Enter coupon code",
    order := 3, status := ActionStatus.pending,
    value := some "SAVE20",
    target := some
      { id := "coupon-input", tag := "input", text := "Coupon code",
        boundingBox := { x := 30, y := 70, width := 20, height := 4 } } }

/-- The action template for the "checkout"/"guest" entry (`src/App.tsx` 310–322). -/
def checkoutAction : Action :=
  { id := "4", type := ActionType.click,
    description := "Proceed to checkout as guest",
    order := 4, status := ActionStatus.pending,
    target := some
      { id := "checkout-btn", tag := "button", text := "Checkout",
        boundingBox := { x := 35, y := 85, width := 15, height := 5 } } }

/-- The Goal Classifier, `generateActionsFromGoal` (`src/App.tsx` 256–326):
lower-case the goal, then append one fixed template per vocabulary hit, in
the fixed table order of the four `if` blocks. -/
def generateActionsFromGoal (goal : String) : List Action :=
  let goalLower := strLower goal
  (if strIncludes goalLower "product" || strIncludes goalLower "find" then
    [productAction] else []) ++
  (if strIncludes goalLower "cart" || strIncludes goalLower "add" then
    [addToCartAction] else []) ++
  (if strIncludes goalLower "coupon" || strIncludes goalLower "apply" then
    [couponAction] else []) ++
  (if strIncludes goalLower "checkout" || strIncludes goalLower "guest" then
    [checkoutAction] else [])

/-- The full classifier vocabulary (the eight substrings tested). -/
def vocab : List String :=
  ["product", "find", "cart", "add", "coupon", "apply", "checkout", "guest"]

/-- The scenario goal used in the spec's test scenarios. -/
def scenarioGoal : String :=
  "Find a product under $50, add to cart, apply coupon SAVE20, checkout as guest"

/-- String rendered by JS template interpolation of an `Action.type` value. -/
def actionTypeStr : ActionType → String
  | ActionType.click => "click"
  | ActionType.type => "type"
  | ActionType.select => "select"
  | ActionType.wait => "wait"
  | ActionType.navigate => "navigate"
  | ActionType.scroll => "scroll"

/-- String rendered by JS template interpolation of an `Action.status` value. -/
def actionStatusStr : ActionStatus → String
  | ActionStatus.pending => "pending"
  | ActionStatus.analyzing => "analyzing"
  | ActionStatus.ready => "ready"
  | ActionStatus.executing => "executing"
  | ActionStatus.completed => "completed"
  | ActionStatus.failed => "failed"

/-- One per-action line of the summary:
`${i + 1}. ${a.type}: ${a.description} - ${a.status}` (`src/App.tsx` 334). -/
def summaryLine (p : Nat × Action) : String :=
  toString (p.1 + 1) ++ ". " ++ actionTypeStr p.2.type ++ ": " ++
    p.2.description ++ " - " ++ actionStatusStr p.2.status

/-- Everything of the summary template up to and including the
`**Generated**: ` label (`src/App.tsx` 329–341). -/
def summaryPrefix (goal : String) (actions : List Action) : String :=
  "# Execution Summary\n\n**Goal**: " ++ goal ++
  "\n\n**Actions Executed**: " ++ toString actions.length ++ "\n" ++
  String.intercalate "\n" (actions.enum.map summaryLine) ++
  "\n\n**Why It Worked**:\n- Visual grounding: Each action mapped to actual UI elements\n- Bounding boxes validated before execution\n- Step-by-step execution with real-time feedback\n\n**Generated**: "

/-- `generateSummary` (`src/App.tsx` 328–343). The source interpolates
`new Date().toISOString()` into the template; that clock reading is the
explicit `now` argument here. -/
def generateSummary (goal : String) (actions : List Action) (now : String) : String :=
  summaryPrefix goal actions ++ (now ++ "\n")

/-- Models the JS truthiness test on an optional string: `undefined`, `null`
and the empty string are falsy. -/
def truthyStr : Option String → Option String
  | none => none
  | some s => if s = "" then none else some s

/-- Models `a.target?.selector || d` as used in the script template:
falls back to the placeholder `d` when the target or its selector is absent
or empty (`src/App.tsx` 355, 359). -/
def selectorOr (t : Option UIElement) (d : String) : String :=
  match t with
  | none => d
  | some e =>
    match truthyStr e.selector with
    | some s => s
    | none => d

/-- JS interpolation `${a.value}` of an optional value: an absent value
prints as the string `undefined`. -/
def optValueStr : Option String → String
  | none => "undefined"
  | some s => s

/-- `generatePlaywrightScript` (`src/App.tsx` 345–366): a pure template over
the action list (braces of the emitted source text written `\x7b`/`\x7d`). -/
def generatePlaywrightScript (actions : List Action) : String :=
  "import \x7b test, expect \x7d from '@playwright/test';\n\ntest('Vision-to-Workflow Demo', async (\x7b page \x7d) => \x7b\n  // Navigate to demo site\n  await page.goto('https://demo.playwright.dev/todomvc');\n  \n  " ++
  String.join (actions.map fun a =>
    match a.type with
    | ActionType.click =>
      "// " ++ a.description ++ "\n  await page.click('" ++
        selectorOr a.target "#element" ++ "');\n"
    | ActionType.type =>
      "// " ++ a.description ++ "\n  await page.fill('" ++
        selectorOr a.target "#input" ++ "', '" ++ optValueStr a.value ++ "');\n"
    | _ => "") ++
  "\x7d);\n"

/-- JSON string escaping as performed by `JSON.stringify` on the characters
that can occur in log fields. -/
def jsonEscape (s : String) : String :=
  String.mk (s.data.flatMap fun c =>
    if c = Char.ofNat 34 then [Char.ofNat 92, Char.ofNat 34]
    else if c = Char.ofNat 92 then [Char.ofNat 92, Char.ofNat 92]
    else if c = '\n' then [Char.ofNat 92, 'n']
    else if c = '\r' then [Char.ofNat 92, 'r']
    else if c = '\t' then [Char.ofNat 92, 't']
    else [c])

/-- String rendered by `JSON.stringify` for a `LogStatus` value. -/
def logStatusStr : LogStatus → String
  | LogStatus.success => "success"
  | LogStatus.error => "error"
  | LogStatus.info => "info"

/-- One record of `JSON.stringify(logs, null, 2)`: two-space indentation,
`undefined` fields omitted. -/
def logEntryJson (l : ExecutionLog) : String :=
  "  \x7b\n    \"timestamp\": \"" ++ jsonEscape l.timestamp ++
  "\",\n    \"action\": \"" ++ jsonEscape l.action ++
  "\",\n    \"status\": \"" ++ logStatusStr l.status ++ "\"" ++
  (match l.details with
   | none => ""
   | some d => ",\n    \"details\": \"" ++ jsonEscape d ++ "\"") ++
  "\n  \x7d"

/-- `generateRunLog` (`src/App.tsx` 368–370): models
`JSON.stringify(logs, null, 2)` on the log array. -/
def generateRunLog (logs : List ExecutionLog) : String :=
  match logs with
  | [] => "[]"
  | _ => "[\n" ++ String.intercalate ",\n" (logs.map logEntryJson) ++ "\n]"

/-- The artifact list built after execution (`src/App.tsx` 119–135); `now` is
the clock reading `generateSummary` interpolates. -/
def generateArtifacts (goal : String) (actions : List Action)
    (logs : List ExecutionLog) (now : String) : List Artifact :=
  [ { type := ArtifactType.summary,
      content := generateSummary goal actions now,
      filename := some "execution-summary.md" },
    { type := ArtifactType.playwrightScript,
      content := generatePlaywrightScript actions,
      filename := some "workflow.spec.ts" },
    { type := ArtifactType.runLog,
      content := generateRunLog logs,
      filename := some "run-log.json" } ]

/-- Observable status mutations emitted by the step-executor loop. -/
inductive ExecEvent where
  | stepStart (i : Nat)
  | stepFinish (i : Nat) (st : ActionStatus)
  deriving DecidableEq

/-- The body of `handleExecute`'s `for` loop (`src/App.tsx` 78–115): each
iteration first sets step `i` to `executing` (`stepStart i`), awaits the
simulated delay, then sets the terminal status from the `Math.random()` coin
flip (`stepFinish i`), before the loop moves to index `i + 1`. `rand i`
models the coin flip `Math.random() > 0.1` of iteration `i`. -/
def handleExecuteSteps (rand : Nat → Bool) : Nat → List Action → List ExecEvent
  | _, [] => []
  | i, _ :: rest =>
    ExecEvent.stepStart i ::
    ExecEvent.stepFinish i
      (if rand i then ActionStatus.completed else ActionStatus.failed) ::
    handleExecuteSteps rand (i + 1) rest

/-- The full status-mutation trace of one `handleExecute` run. -/
def handleExecuteTrace (actions : List Action) (rand : Nat → Bool) : List ExecEvent :=
  handleExecuteSteps rand 0 actions

/-- The `logs` accumulated by `executeWorkflow`'s loop
(`src/lib/playwright-runner.ts` 141–152): one `executeAction` result is
appended per action, unconditionally — the error branch only inserts a
`waitForTimeout(500)` and the loop proceeds. The per-step executor is
abstracted as `exec`. -/
def executeWorkflowLogs (exec : Action → ExecutionLog) : List Action → List ExecutionLog
  | [] => []
  | a :: rest => exec a :: executeWorkflowLogs exec rest

/-- From `src/lib/playwright-runner.ts`: `ExecutionResult`. -/
structure ExecutionResult where
  success : Bool
  logs : List ExecutionLog
  screenshot : Option String := none
  deriving DecidableEq

/-- `executeWorkflow` (`src/lib/playwright-runner.ts` 135–161):
`success := logs.every(l => l.status !== 'error')`. -/
def executeWorkflow (exec : Action → ExecutionLog) (actions : List Action)
    (finalScreenshot : Option String) : ExecutionResult :=
  let logs := executeWorkflowLogs exec actions
  { success := logs.all fun l => decide (l.status ≠ LogStatus.error),
    logs := logs,
    screenshot := finalScreenshot }

/-- A Playwright page operation issued by `executeAction`. -/
inductive PageOp where
  | clickSelector (sel : String)
  | clickCoords (x y : ℚ)
  | fill (sel : String) (value : String)
  | waitTimeout (ms : Nat)
  | scrollBy (dx dy : Int)
  deriving DecidableEq

/-- Resolution of the click/fill selector:
`action.target?.selector || await findElement(action.target!)`, followed by
the JS truthiness test `if (selector)` (`src/lib/playwright-runner.ts`
82, 99). `find` abstracts `findElement`, whose result is also tested for
truthiness by the same `if`. -/
def resolveClickSelector (find : UIElement → Option String) (t : UIElement) : Option String :=
  match truthyStr t.selector with
  | some s => some s
  | none => truthyStr (find t)

/-- The `switch` body of `executeAction` (`src/lib/playwright-runner.ts`
80–115), returning the page operation performed (`none` when the branch does
nothing, as for `navigate`/`select`, which have no `case`). `Except.error`
models a thrown exception, caught by the surrounding `try`/`catch`: with an
absent target, `findElement(action.target!)` dereferences `undefined` and
throws a `TypeError`. -/
def executeActionOp (find : UIElement → Option String) (a : Action) :
    Except String (Option PageOp) :=
  match a.type with
  | ActionType.click =>
    match a.target with
    | none => Except.error "Cannot read properties of undefined"
    | some t =>
      match resolveClickSelector find t with
      | some sel => Except.ok (some (PageOp.clickSelector sel))
      | none =>
        Except.ok (some (PageOp.clickCoords
          ((t.boundingBox.x + t.boundingBox.width / 2) / 100 * 800)
          ((t.boundingBox.y + t.boundingBox.height / 2) / 100 * 600)))
  | ActionType.type =>
    match a.target with
    | none => Except.error "Cannot read properties of undefined"
    | some t =>
      match resolveClickSelector find t, truthyStr a.value with
      | some sel, some v => Except.ok (some (PageOp.fill sel v))
      | _, _ => Except.ok none
  | ActionType.wait => Except.ok (some (PageOp.waitTimeout 1000))
  | ActionType.scroll => Except.ok (some (PageOp.scrollBy 0 300))
  | _ => Except.ok none

/-- `executeAction` (`src/lib/playwright-runner.ts` 67–133): the no-page
guard, then the `switch` under `try`/`catch`, producing one log entry.
`durationDetail` stands for the interpolated `Completed in (duration)ms`. -/
def executeAction (pageInit : Bool) (find : UIElement → Option String)
    (now : String) (durationDetail : String) (a : Action) : ExecutionLog :=
  if pageInit = false then
    { timestamp := now, action := a.description, status := LogStatus.error,
      details := some "No page initialized" }
  else
    match executeActionOp find a with
    | Except.ok _ =>
      { timestamp := now, action := a.description, status := LogStatus.success,
        details := some durationDetail }
    | Except.error e =>
      { timestamp := now, action := a.description, status := LogStatus.error,
        details := some e }

/-- Mock element `prod-1` (`src/lib/speech.ts` 195–201). -/
def mockProduct1 : UIElement :=
  { id := "prod-1", tag := "div", text := "Product - Wireless Headphones - $49.99",
    boundingBox := { x := 5, y := 15, width := 25, height := 20 },
    clickable := some true }

/-- Mock element `prod-2` (`src/lib/speech.ts` 202–208). -/
def mockProduct2 : UIElement :=
  { id := "prod-2", tag := "div", text := "Product - USB-C Cable - $12.99",
    boundingBox := { x := 35, y := 15, width := 25, height := 20 },
    clickable := some true }

/-- Mock element `add-cart-btn` (`src/lib/speech.ts` 212–218). -/
def mockAddCartBtn : UIElement :=
  { id := "add-cart-btn", tag := "button", text := "Add to Cart",
    boundingBox := { x := 40, y := 55, width := 15, height := 5 },
    clickable := some true }

/-- Mock element `coupon-input` (`src/lib/speech.ts` 222–228). -/
def mockCouponInput : UIElement :=
  { id := "coupon-input", tag := "input", text := "Coupon code",
    boundingBox := { x := 25, y := 65, width := 25, height := 4 },
    inputable := some true }

/-- Mock element `apply-coupon-btn` (`src/lib/speech.ts` 229–235). -/
def mockApplyCouponBtn : UIElement :=
  { id := "apply-coupon-btn", tag := "button", text := "Apply",
    boundingBox := { x := 52, y := 65, width := 8, height := 4 },
    clickable := some true }

/-- Mock element `checkout-btn` (`src/lib/speech.ts` 239–245). -/
def mockCheckoutBtn : UIElement :=
  { id := "checkout-btn", tag := "button", text := "Proceed to Checkout",
    boundingBox := { x := 30, y := 80, width := 20, height := 6 },
    clickable := some true }

/-- Mock element `guest-checkout` (`src/lib/speech.ts` 246–252). -/
def mockGuestCheckout : UIElement :=
  { id := "guest-checkout", tag := "button", text := "Checkout as Guest",
    boundingBox := { x := 35, y := 40, width := 18, height := 5 },
    clickable := some true }

/-- Mock element `nav-cart`, always appended (`src/lib/speech.ts` 256–262). -/
def mockNavCart : UIElement :=
  { id := "nav-cart", tag := "a", text := "Cart (0)",
    boundingBox := { x := 80, y := 5, width := 10, height := 4 },
    clickable := some true }

/-- `generateMockAnalysis` (`src/lib/speech.ts` 189–275). Note the
keyword tests: the coupon block tests only "coupon" and the checkout block
only "checkout" (unlike the classifier's or-pairs). -/
def generateMockAnalysis (goal : String) : AnalysisResult :=
  let goalLower := strLower goal
  { elements :=
      (if strIncludes goalLower "product" || strIncludes goalLower "find" then
        [mockProduct1, mockProduct2] else []) ++
      (if strIncludes goalLower "cart" || strIncludes goalLower "add" then
        [mockAddCartBtn] else []) ++
      (if strIncludes goalLower "coupon" then
        [mockCouponInput, mockApplyCouponBtn] else []) ++
      (if strIncludes goalLower "checkout" then
        [mockCheckoutBtn, mockGuestCheckout] else []) ++
      [mockNavCart],
    summary := "E-commerce product listing page with multiple products, shopping cart, and checkout options",
    suggestedActions :=
      ["Click on first product under $50",
       "Click Add to Cart",
       "Enter coupon code",
       "Click Apply",
       "Proceed to checkout as guest"] }

/-- Shape of the object produced by `JSON.parse` on the model response —
all three fields may be absent (`parsed.elements || []` etc.). -/
structure ParsedAnalysis where
  elements : Option (List UIElement) := none
  summary : Option String := none
  suggestedActions : Option (List String) := none

/-- The character `{` (written via its code point). -/
def openBraceChar : Char := Char.ofNat 123

/-- The character `}` (written via its code point). -/
def closeBraceChar : Char := Char.ofNat 125

/-- Index of the last occurrence of `c` in `l`, if any. -/
def lastIdxOf (c : Char) (l : List Char) : Option Nat :=
  match l.reverse.findIdx? (· == c) with
  | none => none
  | some k => some (l.length - 1 - k)

/-- Models the match of the greedy regex (first `{` through last `}`) used
on the model's response text (`src/lib/speech.ts` 172). -/
def extractJsonBlock (s : String) : Option String :=
  match s.data.findIdx? (· == openBraceChar), lastIdxOf closeBraceChar s.data with
  | some i, some j =>
    if i < j then some (String.mk ((s.data.drop i).take (j - i + 1))) else none
  | _, _ => none

/-- `analyzeScreen` (`src/lib/speech.ts` 110–187). `remote` is the single
Gemini call's outcome (its thrown error or its response text); `parse`
abstracts `JSON.parse` on the extracted block, `none` modelling a thrown
parse error (caught by the `try`/`catch`). The second component counts how
many remote attempts were made. -/
def analyzeScreen (apiKey : String) (remote : Except String String)
    (parse : String → Option ParsedAnalysis)
    (imageData goal : String) : AnalysisResult × Nat :=
  if apiKey = "" then
    (generateMockAnalysis goal, 0)
  else
    match remote with
    | Except.error _ => (generateMockAnalysis goal, 1)
    | Except.ok responseText =>
      match extractJsonBlock responseText with
      | some block =>
        match parse block with
        | some parsed =>
          ({ elements := parsed.elements.getD [],
             summary := parsed.summary.getD "",
             suggestedActions := parsed.suggestedActions.getD [] }, 1)
        | none => (generateMockAnalysis goal, 1)
      | none => (generateMockAnalysis goal, 1)

/-- A click action whose target has a degenerate (zero-size) bounding box
and no selector, for the boundary scenario. -/
def degenerateBoxElem : UIElement :=
  { id := "e", tag := "div", text := "x",
    boundingBox := { x := 10, y := 20, width := 0, height := 0 } }

/-- The click action over `degenerateBoxElem`. -/
def degenerateClickAction : Action :=
  { id := "a1", type := ActionType.click, target := some degenerateBoxElem,
    description := "click degenerate box", order := 1,
    status := ActionStatus.pending }

/-! ## Helper lemmas -/

theorem strData_append (s t : String) : (s ++ t).data = s.data ++ t.data := by
  cases s; cases t; rfl

theorem strEq_of_data {s t : String} (h : s.data = t.data) : s = t := by
  cases s; cases t; exact congrArg String.mk h

theorem strAppend_left_cancel {s t u : String} (h : s ++ t = s ++ u) : t = u := by
  apply strEq_of_data
  have hd := congrArg String.data h
  rw [strData_append, strData_append] at hd
  exact List.append_cancel_left hd

theorem strAppend_right_cancel {s t u : String} (h : s ++ u = t ++ u) : s = t := by
  apply strEq_of_data
  have hd := congrArg String.data h
  rw [strData_append, strData_append] at hd
  exact List.append_cancel_right hd

theorem sublist_if_cons {α : Type} (b : Prop) [Decidable b] (x : α)
    {l1 l2 : List α} (h : List.Sublist l1 l2) :
    List.Sublist ((if b then [x] else []) ++ l1) (x :: l2) := by
  by_cases hb : b
  · simp only [if_pos hb, List.singleton_append]
    exact List.Sublist.cons₂ x h
  · simp only [if_neg hb, List.nil_append]
    exact List.Sublist.cons x h

theorem sublist_if_single {α : Type} (b : Prop) [Decidable b] (x : α) :
    List.Sublist (if b then [x] else []) [x] := by
  by_cases hb : b
  · simp only [if_pos hb]
    exact List.Sublist.refl [x]
  · simp only [if_neg hb]
    exact List.nil_sublist [x]

/-! ## Claim theorems -/

/-- C3: for the scenario goal the classifier returns exactly the four
templates (click product, click add-to-cart, type "SAVE20", click checkout)
in that order, and for every goal text the output is a sublist of the fixed
vocabulary-table sequence — templates appear in table order, never in input
order. -/
theorem classifier_scenario_and_table_order :
    generateActionsFromGoal scenarioGoal =
      [productAction, addToCartAction, couponAction, checkoutAction] ∧
    ∀ goal : String,
      List.Sublist (generateActionsFromGoal goal)
        [productAction, addToCartAction, couponAction, checkoutAction] := by
  constructor
  · decide
  · intro goal
    simp only [generateActionsFromGoal]
    rw [List.append_assoc, List.append_assoc]
    apply sublist_if_cons
    apply sublist_if_cons
    apply sublist_if_cons
    exact sublist_if_single _ _

/-- C4: a goal whose lower-casing contains none of the eight vocabulary
substrings yields an empty plan. -/
theorem classifier_no_vocab_empty (goal : String)
    (h : ∀ k ∈ vocab, strIncludes (strLower goal) k = false) :
    generateActionsFromGoal goal = [] := by
  have h1 := h "product" (by simp [vocab])
  have h2 := h "find" (by simp [vocab])
  have h3 := h "cart" (by simp [vocab])
  have h4 := h "add" (by simp [vocab])
  have h5 := h "coupon" (by simp [vocab])
  have h6 := h "apply" (by simp [vocab])
  have h7 := h "checkout" (by simp [vocab])
  have h8 := h "guest" (by simp [vocab])
  simp [generateActionsFromGoal, h1, h2, h3, h4, h5, h6, h7, h8]

/-- C4 witness: the empty goal matches no vocabulary entry and yields the
empty plan. -/
theorem classifier_no_vocab_empty_witness :
    generateActionsFromGoal "" = [] :=
  classifier_no_vocab_empty "" (by decide)

/-- Canonical shape of the executor trace: one `[stepStart j, stepFinish j _]`
block per action, in strictly increasing index order. -/
theorem handleExecuteSteps_canonical (rand : Nat → Bool) (l : List Action) :
    ∀ i, handleExecuteSteps rand i l =
      (List.range' i l.length).flatMap
        (fun j => [ExecEvent.stepStart j,
          ExecEvent.stepFinish j
            (if rand j then ActionStatus.completed else ActionStatus.failed)]) := by
  induction l with
  | nil => intro i; rfl
  | cons a rest ih =>
    intro i
    simp only [handleExecuteSteps, List.length_cons, List.range'_succ,
      List.flatMap_cons, ih (i + 1), List.cons_append, List.nil_append]

/-- In the executor trace, the terminal-status write of step `j + i` is
immediately followed by the start of step `j + i + 1`. -/
theorem handleExecuteSteps_adjacent (rand : Nat → Bool) :
    ∀ (l : List Action) (j i : Nat), i + 1 < l.length →
      ∃ pre post, handleExecuteSteps rand j l =
        pre ++ ExecEvent.stepFinish (j + i)
            (if rand (j + i) then ActionStatus.completed else ActionStatus.failed) ::
          ExecEvent.stepStart (j + i + 1) :: post := by
  intro l
  induction l with
  | nil => intro j i h; simp at h
  | cons a rest ih =>
    intro j i h
    cases i with
    | zero =>
      cases rest with
      | nil => simp at h
      | cons b rest2 =>
        exact ⟨[ExecEvent.stepStart j],
          ExecEvent.stepFinish (j + 1)
              (if rand (j + 1) then ActionStatus.completed else ActionStatus.failed) ::
            handleExecuteSteps rand (j + 2) rest2,
          by simp [handleExecuteSteps]⟩
    | succ k =>
      have hk : k + 1 < rest.length := by
        simp only [List.length_cons] at h
        omega
      obtain ⟨pre, post, hp⟩ := ih (j + 1) k hk
      have hidx : j + 1 + k = j + (k + 1) := by omega
      rw [hidx] at hp
      refine ⟨ExecEvent.stepStart j ::
        ExecEvent.stepFinish j
          (if rand j then ActionStatus.completed else ActionStatus.failed) :: pre,
        post, ?_⟩
      simp [handleExecuteSteps, hp]

/-- C5: the step executor is strictly sequential: its status-mutation trace
is exactly one `[stepStart i, stepFinish i st]` block per action in
increasing index order (so no step is skipped, no step starts twice, no two
steps interleave), and each step `i + 1` starts only immediately after step
`i`'s status was set to a terminal value. -/
theorem executor_strictly_sequential (actions : List Action) (rand : Nat → Bool) :
    handleExecuteTrace actions rand =
      (List.range actions.length).flatMap
        (fun j => [ExecEvent.stepStart j,
          ExecEvent.stepFinish j
            (if rand j then ActionStatus.completed else ActionStatus.failed)]) ∧
    ∀ i, i + 1 < actions.length → ∃ pre post,
      handleExecuteTrace actions rand =
        pre ++ ExecEvent.stepFinish i
            (if rand i then ActionStatus.completed else ActionStatus.failed) ::
          ExecEvent.stepStart (i + 1) :: post := by
  constructor
  · rw [handleExecuteTrace, handleExecuteSteps_canonical rand actions 0,
      List.range_eq_range']
  · intro i h
    obtain ⟨pre, post, hp⟩ := handleExecuteSteps_adjacent rand actions 0 i h
    exact ⟨pre, post, by simpa using hp⟩

/-- C5 witness: a two-step plan with both coin flips succeeding — the
terminal write of step 0 is immediately followed by the start of step 1. -/
theorem executor_strictly_sequential_witness :
    ∃ pre post,
      handleExecuteTrace [productAction, addToCartAction] (fun _ => true) =
        pre ++ ExecEvent.stepFinish 0 ActionStatus.completed ::
          ExecEvent.stepStart 1 :: post :=
  (executor_strictly_sequential [productAction, addToCartAction]
    (fun _ => true)).2 0 (by decide)

/-- The workflow loop appends one log per action, in order. -/
theorem executeWorkflowLogs_eq_map (exec : Action → ExecutionLog) :
    ∀ l : List Action, executeWorkflowLogs exec l = l.map exec := by
  intro l
  induction l with
  | nil => rfl
  | cons a rest ih => simp [executeWorkflowLogs, ih]

/-- C6: `executeWorkflow` continues past failed steps — it logs every action
(one entry per action, in order) regardless of earlier errors — and its
`success` flag is true exactly when no per-step log entry has status
`error`. -/
theorem executeWorkflow_continue_on_error (exec : Action → ExecutionLog)
    (actions : List Action) (shot : Option String) :
    (executeWorkflow exec actions shot).logs = actions.map exec ∧
    (executeWorkflow exec actions shot).logs.length = actions.length ∧
    ((executeWorkflow exec actions shot).success = true ↔
      ∀ l ∈ (executeWorkflow exec actions shot).logs,
        l.status ≠ LogStatus.error) := by
  refine ⟨?_, ?_, ?_⟩ <;>
    simp [executeWorkflow, executeWorkflowLogs_eq_map, List.all_eq_true]

/-- C7: `analyzeScreen` makes at most one remote attempt and is total with
respect to remote failure: with no API key it returns the fallback without
any attempt; if the remote call throws, or the response has no brace-matched
JSON block, or that block fails to parse, it returns the fallback after
exactly one attempt. -/
theorem analyzeScreen_total_one_attempt (apiKey imageData goal : String)
    (remote : Except String String) (parse : String → Option ParsedAnalysis) :
    (analyzeScreen apiKey remote parse imageData goal).2 ≤ 1 ∧
    (apiKey = "" →
      analyzeScreen apiKey remote parse imageData goal =
        (generateMockAnalysis goal, 0)) ∧
    (∀ e, remote = Except.error e →
      (analyzeScreen apiKey remote parse imageData goal).1 =
        generateMockAnalysis goal) ∧
    (∀ txt, remote = Except.ok txt → extractJsonBlock txt = none →
      (analyzeScreen apiKey remote parse imageData goal).1 =
        generateMockAnalysis goal) ∧
    (∀ txt blk, remote = Except.ok txt → extractJsonBlock txt = some blk →
      parse blk = none →
      (analyzeScreen apiKey remote parse imageData goal).1 =
        generateMockAnalysis goal) := by
  refine ⟨?_, ?_, ?_, ?_, ?_⟩
  · unfold analyzeScreen
    by_cases hk : apiKey = ""
    · simp [hk]
    · simp only [if_neg hk]
      cases remote with
      | error e => simp
      | ok txt =>
        cases hej : extractJsonBlock txt with
        | none => simp [hej]
        | some blk =>
          cases hp : parse blk with
          | none => simp [hej, hp]
          | some p => simp [hej, hp]
  · intro hk
    simp [analyzeScreen, hk]
  · intro e he
    subst he
    unfold analyzeScreen
    split_ifs <;> rfl
  · intro txt ht hext
    subst ht
    unfold analyzeScreen
    split_ifs with hk
    · rfl
    · simp [hext]
  · intro txt blk ht hext hp
    subst ht
    unfold analyzeScreen
    split_ifs with hk
    · rfl
    · simp [hext, hp]

/-- C7 witness: no key configured, a failing remote and a failing parser —
the fallback analysis is returned with zero remote attempts. -/
theorem analyzeScreen_total_one_attempt_witness :
    analyzeScreen "" (Except.error "network") (fun _ => none) "" "buy stuff" =
      (generateMockAnalysis "buy stuff", 0) :=
  (analyzeScreen_total_one_attempt "" "" "buy stuff" (Except.error "network")
    (fun _ => none)).2.1 rfl

/-- C8: for a click action whose target resolves to no selector, the
executor issues a coordinate click at the (possibly degenerate) bounding-box
center `((x + w/2)/100·800, (y + h/2)/100·600)`; the computation is total —
the step produces a success log, never an exception. -/
theorem click_coordinate_fallback_total (find : UIElement → Option String)
    (a : Action) (t : UIElement)
    (hty : a.type = ActionType.click) (htg : a.target = some t)
    (hsel : resolveClickSelector find t = none) :
    executeActionOp find a = Except.ok (some (PageOp.clickCoords
      ((t.boundingBox.x + t.boundingBox.width / 2) / 100 * 800)
      ((t.boundingBox.y + t.boundingBox.height / 2) / 100 * 600))) ∧
    ∀ now durationDetail,
      (executeAction true find now durationDetail a).status = LogStatus.success := by
  have hop : executeActionOp find a = Except.ok (some (PageOp.clickCoords
      ((t.boundingBox.x + t.boundingBox.width / 2) / 100 * 800)
      ((t.boundingBox.y + t.boundingBox.height / 2) / 100 * 600))) := by
    simp only [executeActionOp, hty, htg, hsel]
  refine ⟨hop, ?_⟩
  intro now durationDetail
  simp [executeAction, hop]

/-- C8 witness: a zero-width, zero-height box still produces the coordinate
click at its degenerate center and a success log. -/
theorem click_coordinate_fallback_total_witness :
    executeActionOp (fun _ => none) degenerateClickAction =
      Except.ok (some (PageOp.clickCoords
        ((degenerateBoxElem.boundingBox.x + degenerateBoxElem.boundingBox.width / 2) / 100 * 800)
        ((degenerateBoxElem.boundingBox.y + degenerateBoxElem.boundingBox.height / 2) / 100 * 600))) ∧
    (executeAction true (fun _ => none) "2024-01-01T00:00:00.000Z"
      "Completed in 3ms" degenerateClickAction).status = LogStatus.success := by
  have h := click_coordinate_fallback_total (fun _ => none)
    degenerateClickAction degenerateBoxElem rfl rfl rfl
  exact ⟨h.1, h.2 "2024-01-01T00:00:00.000Z" "Completed in 3ms"⟩

/-- C10: for every goal — including ones matching no vocabulary entry — the
fallback analysis has a non-empty element list ending in the always-appended
`Cart (0)` navigation link, and exactly five suggested action strings. -/
theorem mock_analysis_always_populated (goal : String) :
    (generateMockAnalysis goal).elements ≠ [] ∧
    (generateMockAnalysis goal).elements.getLast? = some mockNavCart ∧
    (generateMockAnalysis goal).suggestedActions.length = 5 := by
  simp only [generateMockAnalysis]
  split_ifs <;> exact ⟨by decide, by decide, by decide⟩

/-- C2 counterexample: at the scenario goal, the no-credential fallback does
not match the classifier's output — it has five suggested actions and eight
elements against the classifier's four actions, and its suggested actions
are not the classifier's action descriptions. -/
theorem mock_fallback_mismatch_counterexample :
    (generateMockAnalysis scenarioGoal).suggestedActions.length = 5 ∧
    (generateActionsFromGoal scenarioGoal).length = 4 ∧
    (generateMockAnalysis scenarioGoal).elements.length = 8 ∧
    (generateMockAnalysis scenarioGoal).suggestedActions ≠
      (generateActionsFromGoal scenarioGoal).map Action.description := by
  exact ⟨by decide, by decide, by decide, by decide⟩

/-- C2 amended: with no credential, `analyzeScreen` returns the fixed mock
analysis `generateMockAnalysis(goal)` without a remote attempt; at the
scenario goal that analysis holds the five canned suggested-action strings
and eight elements — it is its own canned table, not the Goal Classifier's
four-action output. -/
theorem mock_fallback_fixed (remote : Except String String)
    (parse : String → Option ParsedAnalysis) (imageData : String) :
    analyzeScreen "" remote parse imageData scenarioGoal =
      (generateMockAnalysis scenarioGoal, 0) ∧
    (generateMockAnalysis scenarioGoal).suggestedActions =
      ["Click on first product under $50", "Click Add to Cart",
       "Enter coupon code", "Click Apply", "Proceed to checkout as guest"] ∧
    (generateMockAnalysis scenarioGoal).elements.map UIElement.id =
      ["prod-1", "prod-2", "add-cart-btn", "coupon-input", "apply-coupon-btn",
       "checkout-btn", "guest-checkout", "nav-cart"] ∧
    (generateActionsFromGoal scenarioGoal).length = 4 := by
  exact ⟨by simp [analyzeScreen], by decide, by decide, by decide⟩

set_option maxRecDepth 100000 in
/-- C1 counterexample: with identical goal, action list and logs, two
artifact generations with distinct clock readings yield different artifact
contents (the summary embeds `new Date().toISOString()`). -/
theorem artifact_generation_not_clock_free :
    generateArtifacts "g" [] [] "2024-01-01T00:00:00.000Z" ≠
      generateArtifacts "g" [] [] "2024-01-01T00:00:00.001Z" := by
  decide

/-- C1 amended: the Artifact Generator is a pure function of (goal, final
actions, final log, clock reading): two runs yield bit-identical artifacts
iff they observe the same clock value — the script and run-log artifacts
take no clock input at all, while the summary embeds the timestamp. -/
theorem artifact_generation_timestamp_determinism (goal : String)
    (actions : List Action) (logs : List ExecutionLog) (t1 t2 : String) :
    generateArtifacts goal actions logs t1 =
      generateArtifacts goal actions logs t2 ↔ t1 = t2 := by
  constructor
  · intro h
    have h0 := congrArg (fun l : List Artifact => l.map Artifact.content) h
    simp only [generateArtifacts, List.map_cons, List.map_nil,
      List.cons.injEq, and_true] at h0
    have h1 : summaryPrefix goal actions ++ (t1 ++ "\n") =
        summaryPrefix goal actions ++ (t2 ++ "\n") := h0
    exact strAppend_right_cancel (strAppend_left_cancel h1)
  · intro h
    rw [h]

/-- C9: for every goal, each classifier action is `pending`, the `order`
fields are a strictly increasing subsequence of 1,2,3,4, the ids are
pairwise distinct, and every action carries a target element. -/
theorem classifier_output_invariants (goal : String) :
    ((generateActionsFromGoal goal).all
      fun a => decide (a.status = ActionStatus.pending)) = true ∧
    List.Pairwise (· < ·) ((generateActionsFromGoal goal).map Action.order) ∧
    List.Sublist ((generateActionsFromGoal goal).map Action.order) [1, 2, 3, 4] ∧
    ((generateActionsFromGoal goal).map Action.id).Nodup ∧
    ((generateActionsFromGoal goal).all fun a => a.target.isSome) = true := by
  simp only [generateActionsFromGoal]
  split_ifs <;> exact ⟨by decide, by decide, by decide, by decide, by decide⟩

end VisionNav
